import Mathlib

/-!
Shallow embedding of `src/app.py` (AI Assistant Proxy, FastAPI) and proofs
about its request-handling pipeline: client identification, fixed-window
rate limiting, parameter extraction, wake-word gating, provider
orchestration with fallback, and response shaping.

Conventions of the embedding:
* Python `time.time()` and the network are oracles: the current time, the
  upstream HTTP outcomes and the timestamped persona text produced by
  `time_system_message()` are explicit parameters.
* Python numbers are `Rat` (floats) and `Int` (ints); JSON values reaching
  `float()` / `int()` are a small `PyVal` type.
* Exceptions are `Except`: FastAPI `HTTPException(status, detail)` is
  distinguished from any other uncaught Python exception, because
  `handle_chat` catches only `HTTPException`.
* The in-memory rate-limit dicts are association lists `String → Entry`.
-/

set_option linter.unusedVariables false
set_option linter.unnecessarySeqFocus false

deriving instance DecidableEq for Except

namespace Marion

/-- Server configuration, from the environment block at the top of `app.py`. -/
structure Config where
  GROQ_API_KEY : String
  HF_API_TOKEN : String
  GROQ_MODEL : String
  HF_MODEL : String
  PER_MINUTE : Int
  DAILY_CAP : Int
  ASSISTANT_NAME : String
  WAKE_WORD_MODE : String
deriving Repr, DecidableEq

/-- A chat message object from the request body: a dict whose `role` and
`content` keys may each be absent (`m.get` is used everywhere in the source). -/
structure Msg where
  role : Option String
  content : Option String
deriving Repr, DecidableEq

/-- The value found at the `messages` key of the body: either a Python list of
message objects or some non-list value (`isinstance(messages, list)` check). -/
inductive MessagesField where
  | list (msgs : List Msg)
  | nonList
deriving Repr, DecidableEq

/-- A JSON-decoded Python value reaching `float()` / `int()` in the parameter
extraction: a number, a string, or any other value (null, object, array),
which those conversions reject with a TypeError. -/
inductive PyVal where
  | num (q : Rat)
  | str (s : String)
  | other
deriving Repr, DecidableEq

/-- The parsed request body: the three keys `handle_chat` reads. -/
structure Body where
  messages : Option MessagesField
  temperature : Option PyVal
  maxTokens : Option PyVal
deriving Repr, DecidableEq

/-- The inbound request as `handle_chat` sees it: the JSON body (or a parse
failure message), the `x-forwarded-for` header ("" when absent) and the direct
connection address ("" when `req.client` is absent). -/
structure RequestModel where
  body : Except String Body
  forwarded : String
  clientHost : String
deriving Repr

/-! ### Character-list string utilities

The Lean core `String.splitOn`, `String.trim` and `String.toNat?` do not
reduce in the kernel, so the string processing of the embedding is done over
`List Char` with the standard semantics of the Python operations used by the
source (`str.split`, `str.strip`, decimal literals). -/

/-- Whitespace removed by Python `str.strip()` (the ASCII cases). -/
def isPyWhitespace (c : Char) : Bool :=
  c = ' ' || c = '\t' || c = '\n' || c = '\r' || c = '\x0b' || c = '\x0c'

/-- Python `str.strip()`: whitespace removed from both ends. -/
def trimChars (cs : List Char) : List Char :=
  ((cs.dropWhile isPyWhitespace).reverse.dropWhile isPyWhitespace).reverse

/-- Python `str.split(sep)` for a one-character separator: the groups between
occurrences of `sep`, empty groups included; `[""]` on the empty string. -/
def splitOnChar (sep : Char) : List Char → List (List Char)
  | [] => [[]]
  | c :: rest =>
    if c = sep then [] :: splitOnChar sep rest
    else
      match splitOnChar sep rest with
      | [] => [[c]]
      | g :: gs => (c :: g) :: gs

/-- The pattern `p` is a prefix of `cs`. -/
def startsWithChars : List Char → List Char → Bool
  | _, [] => true
  | [], _ :: _ => false
  | c :: cs, p :: ps => c = p && startsWithChars cs ps

/-- Python `str.split(sep)` for a multi-character separator, scanning left to
right without overlap; `fuel` bounds the recursion (pass the length). -/
def splitOnChars (sep : List Char) : Nat → List Char → List (List Char)
  | _, [] => [[]]
  | 0, cs => [cs]
  | fuel + 1, c :: cs =>
    if startsWithChars (c :: cs) sep && !sep.isEmpty then
      [] :: splitOnChars sep fuel ((c :: cs).drop sep.length)
    else
      match splitOnChars sep fuel cs with
      | [] => [[c]]
      | g :: gs => (c :: g) :: gs

/-- Value of a nonempty all-digit string, the accepting core of Python's
decimal-literal parsing (`none` if empty or any character is not a digit). -/
def decimalValue (cs : List Char) : Option Nat :=
  if !cs.isEmpty && cs.all Char.isDigit then
    some (cs.foldl (fun n c => n * 10 + (c.toNat - 48)) 0)
  else none

/-! ### Python `float()` / `int()` on JSON values -/

/-- Decimal string accepted by Python `float()`: optional sign, then digits
with at most one point and at least one digit. (Exponents, `inf`/`nan` and
underscore separators of the full Python grammar are not modelled; no input
considered here uses them.) Returns the exact rational value. -/
def pyFloatString (s : String) : Option Rat :=
  let t := trimChars s.toList
  let (neg, u) : Bool × List Char :=
    match t with
    | '-' :: rest => (true, rest)
    | '+' :: rest => (false, rest)
    | _ => (false, t)
  match splitOnChar '.' u with
  | [a] =>
    (decimalValue a).map (fun n => if neg then -(n : Rat) else (n : Rat))
  | [a, b] =>
    if a.isEmpty && b.isEmpty then none
    else
      match (if a.isEmpty then some 0 else decimalValue a),
            (if b.isEmpty then some 0 else decimalValue b) with
      | some ip, some fp =>
        let q : Rat := (ip : Rat) + (fp : Rat) / ((10 : Rat) ^ b.length)
        some (if neg then -q else q)
      | _, _ => none
  | _ => none

/-- Integer string accepted by Python `int()`: optional sign then digits. -/
def pyIntString (s : String) : Option Int :=
  let t := trimChars s.toList
  let (neg, u) : Bool × List Char :=
    match t with
    | '-' :: rest => (true, rest)
    | '+' :: rest => (false, rest)
    | _ => (false, t)
  (decimalValue u).map (fun n => if neg then -(n : Int) else (n : Int))

/-- Python `float(v)` on a JSON-decoded value: numbers pass through, strings
are parsed (ValueError on failure), anything else is a TypeError. -/
def pyFloat : PyVal → Except String Rat
  | .num q => .ok q
  | .str s =>
    match pyFloatString s with
    | some q => .ok q
    | none => .error ("ValueError: could not convert string to float: " ++ s)
  | .other => .error "TypeError: float() argument must be a string or a real number"

/-- Truncation toward zero, the behaviour of Python `int()` on a float:
the magnitude is divided out and the sign reapplied. -/
def ratTrunc (q : Rat) : Int :=
  if q.num < 0 then -(Int.ofNat (q.num.natAbs / q.den)) else Int.ofNat (q.num.natAbs / q.den)

/-- Python `int(v)` on a JSON-decoded value: numbers truncate toward zero,
strings are parsed as integer literals (ValueError on failure), anything else
is a TypeError. -/
def pyInt : PyVal → Except String Int
  | .num q => .ok (ratTrunc q)
  | .str s =>
    match pyIntString s with
    | some n => .ok n
    | none => .error ("ValueError: invalid literal for int() with base 10: " ++ s)
  | .other => .error "TypeError: int() argument must be a string or a number"

/-! ### Client identity resolver (`client_ip`, app.py lines 68-75) -/

/-- Dotted-quad IPv4 validity per CPython `ipaddress`: exactly four fields,
each 1-3 ASCII digits, value at most 255, no leading zero. -/
def isIpv4 (s : String) : Bool :=
  let parts := splitOnChar '.' s.toList
  decide (parts.length = 4) &&
    parts.all (fun p =>
      decide (1 ≤ p.length) && decide (p.length ≤ 3) && p.all Char.isDigit &&
        (match decimalValue p with
         | some n => decide (n ≤ 255) && !(decide (2 ≤ p.length) && decide (p.headD '0' = '0'))
         | none => false))

/-- Hex group of an IPv6 address: 1-4 hex digits. -/
def isHexGroup (p : List Char) : Bool :=
  decide (1 ≤ p.length) && decide (p.length ≤ 4) &&
    p.all (fun c => c.isDigit || (('a' ≤ c.toLower) && (c.toLower ≤ 'f')))

/-- IPv6 validity, the part of the CPython grammar used here: either eight hex
groups, or a single `::` abbreviation with fewer than eight groups overall.
(Embedded-IPv4 tails and zone identifiers are not modelled; no input
considered here uses them.) -/
def isIpv6 (s : String) : Bool :=
  let cs := s.toList
  match splitOnChars [':', ':'] cs.length cs with
  | [whole] =>
    let gs := splitOnChar ':' whole
    decide (gs.length = 8) && gs.all isHexGroup
  | [l, r] =>
    let lg := if l.isEmpty then [] else splitOnChar ':' l
    let rg := if r.isEmpty then [] else splitOnChar ':' r
    decide (lg.length + rg.length ≤ 7) && lg.all isHexGroup && rg.all isHexGroup
  | _ => false

/-- Validity test of Python `ipaddress.ip_address(ip)`: succeeds exactly on
IPv4 or IPv6 literals (modelled as above). -/
def ipaddress_ok (s : String) : Bool := isIpv4 s || isIpv6 s

/-- Embedding of `client_ip` (app.py lines 68-75), parameterized by the
address-validity oracle `valid` standing for `ipaddress.ip_address`. The first
comma-separated field of the forwarding header is stripped; if it is nonempty
it is the candidate, else the direct connection address, else `"0.0.0.0"`;
an invalid candidate yields `"0.0.0.0"`. -/
def client_ip (valid : String → Bool) (forwarded clientHost : String) : String :=
  let fwd := String.mk (trimChars ((splitOnChar ',' forwarded.toList).headD []))
  let ip := if fwd ≠ "" then fwd else if clientHost ≠ "" then clientHost else "0.0.0.0"
  if valid ip then ip else "0.0.0.0"

/-! ### Rate limiter (`hit`, app.py lines 77-84) -/

/-- One fixed-window counter entry: `{"count": ..., "exp": ...}`. The clock
(`time.time()`, a float) is modelled at integer instants; no behaviour of the
limiter depends on fractional seconds. -/
structure Entry where
  count : Int
  exp : Int
deriving Repr, DecidableEq

/-- A rate-limit bucket, the in-memory dict keyed by client address. -/
def Bucket : Type := List (String × Entry)

instance : DecidableEq Bucket := by
  unfold Bucket; infer_instance

/-- Dict lookup `bucket.get(key)`. -/
def getEntry (b : Bucket) (key : String) : Option Entry :=
  ((b.find? (fun p => p.1 = key)).map (fun p => p.2))

/-- Dict store `bucket[key] = e`: replaces the entry in place, or appends. -/
def setEntry (b : Bucket) (key : String) (e : Entry) : Bucket :=
  match b with
  | [] => [(key, e)]
  | (k, v) :: rest =>
    if k = key then (key, e) :: rest else (k, v) :: setEntry rest key e

/-- Embedding of `hit(bucket, key, limit, ttl)` (app.py lines 77-84), with the
current time `now` explicit. Returns the reported exceeded flag and the
updated bucket: a missing or expired entry is replaced by a fresh
`{count 1, exp now + ttl}` and `False` is reported; otherwise the count is
incremented and the flag is `count > limit` after the increment. -/
def hit (b : Bucket) (key : String) (limit ttl : Int) (now : Int) : Bool × Bucket :=
  match getEntry b key with
  | none => (false, setEntry b key ⟨1, now + ttl⟩)
  | some e =>
    if now > e.exp then (false, setEntry b key ⟨1, now + ttl⟩)
    else (decide (e.count + 1 > limit), setEntry b key ⟨e.count + 1, e.exp⟩)

/-- Bucket state after `n` further calls of `hit` with the same key, limit,
ttl and time. -/
def afterHits (b : Bucket) (key : String) (limit ttl : Int) (now : Int) : Nat → Bucket
  | 0 => b
  | n + 1 => (hit (afterHits b key limit ttl now n) key limit ttl now).2

/-! ### Wake-word helper (`mentions_name`, app.py lines 122-123) -/

/-- Word character of the regex `\b` boundary: letter, digit or underscore. -/
def isWordChar (c : Char) : Bool := c.isAlphanum || c = '_'

/-- No word character immediately before position `i` (regex `\b` on the left). -/
def preBoundary (t : List Char) (i : Nat) : Bool :=
  match i with
  | 0 => true
  | j + 1 =>
    match t[j]? with
    | none => true
    | some c => !isWordChar c

/-- No word character at position `j` (regex `\b` on the right). -/
def postBoundary (t : List Char) (j : Nat) : Bool :=
  match t[j]? with
  | none => true
  | some c => !isWordChar c

/-- The pattern `n` occurs at position `i` of `t` delimited by word boundaries. -/
def matchWordAt (t n : List Char) (i : Nat) : Bool :=
  decide ((t.drop i).take n.length = n) && preBoundary t i && postBoundary t (i + n.length)

/-- Embedding of `mentions_name` (app.py lines 122-123): the case-insensitive
whole-word search `re.search(rf"\b{name}\b", text, re.IGNORECASE)` with the
name taken literally (the source applies `re.escape`). Case folding is
modelled by lowercasing both sides; `\b` by the word-character boundary
checks above (ASCII-faithful; the configured name and the inputs considered
are ASCII). -/
def mentions_name (name text : String) : Bool :=
  let t := text.toList.map Char.toLower
  let n := name.toList.map Char.toLower
  (List.range (t.length + 1)).any (fun i => matchWordAt t n i)

/-! ### Prompt conversion for the HF fallback (`to_instruct_prompt`, lines 126-138) -/

/-- The loop body of `to_instruct_prompt`: one line per message, with the
role defaulting to `user` and the content to `""`. -/
def renderMsg (m : Msg) : String :=
  let role := m.role.getD "user"
  let content := m.content.getD ""
  if role = "user" then "User: " ++ content
  else if role = "assistant" then "Assistant: " ++ content
  else content

/-- Embedding of `to_instruct_prompt(messages)` (app.py lines 126-138). The
timestamped persona text produced by the `time_system_message()` call on
line 127 is the explicit parameter `sysText`. The parts list starts with the
`System:` line, accumulates one line per message, ends with the bare
`Assistant:` cue, and is joined by newlines. -/
def to_instruct_prompt (sysText : String) (messages : List Msg) : String :=
  let parts := messages.foldl (fun acc m => acc ++ [renderMsg m]) ["System: " ++ sysText]
  String.intercalate "\n" (parts ++ ["Assistant:"])

/-- Flattening as the spec's words describe the free-text adapter: the system
line, then each message rendered by role, joined by newlines and terminated
with a trailing `Assistant:` cue. Stated with `List.map` for comparison with
the fold of the source embedding. -/
def specFlatten (sysLine : String) (messages : List Msg) : String :=
  String.intercalate "\n" ((sysLine :: messages.map renderMsg) ++ ["Assistant:"])

/-! ### Provider adapters (app.py lines 146-186) -/

/-- A raised Python exception as `handle_chat` can observe it: a FastAPI
`HTTPException(status, detail)`, or any other exception (httpx transport
errors, JSON decode errors), which `except HTTPException` does not catch. -/
inductive PyExc where
  | httpExc (status : Int) (detail : String)
  | otherExc (msg : String)
deriving Repr, DecidableEq

/-- Oracle for the outbound Groq HTTP round trip: either httpx raised
(connection failure, timeout, undecodable body), or a response arrived with a
status, a body text, and — for the shape extraction
`data["choices"][0]["message"]["content"]` — the extracted string, `none`
when the indexing fails. -/
inductive GroqUpstream where
  | transport (msg : String)
  | httpR (status : Int) (bodyText : String) (content : Option String)
deriving Repr, DecidableEq

/-- Embedding of `groq_generate_chat` (app.py lines 146-166): missing key
raises `HTTPException 500`; a transport failure propagates as a non-HTTP
exception; a status of 400 or more raises `HTTPException(status, body)`;
a success response yields the extracted content or, when the shape check
fails, `HTTPException 500` for the unexpected shape. -/
def groq_generate_chat (cfg : Config) (up : GroqUpstream)
    (messages : List Msg) (temperature : Rat) (maxTokens : Int) : Except PyExc String :=
  if cfg.GROQ_API_KEY = "" then
    .error (.httpExc 500 "Server misconfigured: missing GROQ_API_KEY")
  else
    match up with
    | .transport m => .error (.otherExc m)
    | .httpR status bodyText content =>
      if status ≥ 400 then .error (.httpExc status bodyText)
      else
        match content with
        | some text => .ok text
        | none => .error (.httpExc 500 "Unexpected Groq response shape")

/-- Oracle for the outbound Hugging Face round trip: transport failure, or a
response with status, body text, and the `generated_text` extraction result
over the list-or-dict shapes (`none` when neither shape matches). -/
inductive HfUpstream where
  | transport (msg : String)
  | httpR (status : Int) (bodyText : String) (generated : Option String)
deriving Repr, DecidableEq

/-- Embedding of `hf_generate` (app.py lines 168-186): missing token raises
`HTTPException 500`; transport failures propagate as non-HTTP exceptions; a
status of 400 or more raises `HTTPException(status, body)`; otherwise the
extracted `generated_text` is returned, defaulting to `""`. -/
def hf_generate (cfg : Config) (up : HfUpstream)
    (prompt : String) (temperature : Rat) (maxNewTokens : Int) : Except PyExc String :=
  if cfg.HF_API_TOKEN = "" then
    .error (.httpExc 500 "Server misconfigured: missing HF_API_TOKEN")
  else
    match up with
    | .transport m => .error (.otherExc m)
    | .httpR status bodyText generated =>
      if status ≥ 400 then .error (.httpExc status bodyText)
      else .ok (generated.getD "")

/-! ### The main handler (`handle_chat`, app.py lines 189-242) -/

/-- A JSON value in a response object: a string, `null`, or the empty
mapping `{}` (the only mapping the source ever emits as `usage`). -/
inductive RVal where
  | s (v : String)
  | null
  | emptyMap
deriving Repr, DecidableEq

/-- The guard short-circuit response of app.py lines 214-217: note the keys,
in source order — there is no `usage` key and `model` is `null`. -/
def guardResp (name : String) : List (String × RVal) :=
  [("reply", .s ("(…waiting) Say '" ++ name ++ "' to talk to me.")),
   ("provider", .s "guard"),
   ("model", .null)]

/-- The Groq success response of app.py line 230: `usage` is the literal
empty mapping. -/
def groqResp (cfg : Config) (text : String) : List (String × RVal) :=
  [("reply", .s text), ("usage", .emptyMap),
   ("model", .s cfg.GROQ_MODEL), ("provider", .s "groq")]

/-- The Hugging Face success response of app.py lines 235 and 240: `usage`
is the literal empty mapping. -/
def hfResp (cfg : Config) (text : String) : List (String × RVal) :=
  [("reply", .s text), ("usage", .emptyMap),
   ("model", .s cfg.HF_MODEL), ("provider", .s "huggingface")]

/-- What `handle_chat` produces: an `HTTPException(status, detail)`, a JSON
response object, or an uncaught non-HTTP Python exception. -/
inductive ChatResult where
  | httpError (status : Int) (detail : String)
  | ok (fields : List (String × RVal))
  | pyError (msg : String)
deriving Repr, DecidableEq

/-- An outbound provider HTTP call, with the payload data it carries. -/
inductive ProviderCall where
  | groq (messages : List Msg) (temperature : Rat) (maxTokens : Int)
  | hf (prompt : String) (temperature : Rat) (maxTokens : Int)
deriving Repr, DecidableEq

/-- The observable outcome of one `handle_chat` run: the result, the outbound
provider calls in order, and the two rate-limit buckets after the run. -/
structure ChatOutcome where
  result : ChatResult
  calls : List ProviderCall
  rateMin : Bucket
  rateDay : Bucket
deriving DecidableEq

/-- The float literal `0.7`, in normal form so that evaluation never needs
the irreducible `Rat` field arithmetic. -/
def rat07 : Rat := ⟨7, 10, by decide, by decide⟩

/-- The numeric literal `256` as a rational. -/
def rat256 : Rat := ⟨256, 1, by decide, by decide⟩

/-- Embedding of app.py lines 207-209: `temperature` defaults to `0.7` then
passes through `float()`, `max_tokens` defaults to `256` then passes through
`int()`; the first conversion failure propagates. No clamping occurs. -/
def extract_params (body : Body) : Except String (Rat × Int) := do
  let temperature ← pyFloat (body.temperature.getD (.num rat07))
  let maxTokens ← pyInt (body.maxTokens.getD (.num rat256))
  return (temperature, maxTokens)

/-- The most recent user-role message content (app.py line 212): the first
message of the reversed list whose `role` equals `"user"` (no default for the
role here), with content defaulting to `""`, and `""` when none exists. -/
def lastUserContent (msgs : List Msg) : String :=
  ((msgs.reverse.find? (fun m => m.role == some "user")).map
    (fun m => m.content.getD "")).getD ""

/-- Embedding of `handle_chat` (app.py lines 189-242). Oracles: `now` for
`time.time()`, `groqUp` and `hfUp` for the two upstream round trips, and
`sysText` for the timestamped persona text of `time_system_message()`.
Control flow mirrors the source: JSON parse, messages validation, per-minute
then daily rate check, parameter conversion, wake-word gate, system-message
prepend (unconditional — both branches of lines 221-224 prepend), then
Groq with a Hugging Face fallback attempted only on `HTTPException`. -/
def handle_chat (cfg : Config) (now : Int) (rateMin rateDay : Bucket)
    (groqUp : GroqUpstream) (hfUp : HfUpstream) (sysText : String)
    (req : RequestModel) : ChatOutcome :=
  match req.body with
  | .error e => ⟨.httpError 400 ("Invalid JSON: " ++ e), [], rateMin, rateDay⟩
  | .ok body =>
    match body.messages with
    | some (.list msgs) =>
      if msgs = [] then ⟨.httpError 400 "messages[] is required", [], rateMin, rateDay⟩
      else
        let ip := client_ip ipaddress_ok req.forwarded req.clientHost
        let r1 := hit rateMin ("min:" ++ ip) cfg.PER_MINUTE 60 now
        if r1.1 then ⟨.httpError 429 "Per-minute limit hit.", [], r1.2, rateDay⟩
        else
          let r2 := hit rateDay ("day:" ++ ip) cfg.DAILY_CAP 86400 now
          if r2.1 then ⟨.httpError 429 "Daily cap reached.", [], r1.2, r2.2⟩
          else
            match extract_params body with
            | .error m => ⟨.pyError m, [], r1.2, r2.2⟩
            | .ok (temperature, maxTokens) =>
              if cfg.WAKE_WORD_MODE = "require"
                  && !mentions_name cfg.ASSISTANT_NAME (lastUserContent msgs) then
                ⟨.ok (guardResp cfg.ASSISTANT_NAME), [], r1.2, r2.2⟩
              else
                let messages2 := Msg.mk (some "system") (some sysText) :: msgs
                if cfg.GROQ_API_KEY ≠ "" then
                  match groq_generate_chat cfg groqUp messages2 temperature maxTokens with
                  | .ok text =>
                    ⟨.ok (groqResp cfg text), [.groq messages2 temperature maxTokens], r1.2, r2.2⟩
                  | .error (.httpExc st d) =>
                    if cfg.HF_API_TOKEN ≠ "" then
                      let prompt := to_instruct_prompt sysText messages2
                      match hf_generate cfg hfUp prompt temperature maxTokens with
                      | .ok text =>
                        ⟨.ok (hfResp cfg text),
                         [.groq messages2 temperature maxTokens, .hf prompt temperature maxTokens],
                         r1.2, r2.2⟩
                      | .error (.httpExc st2 d2) =>
                        ⟨.httpError st2 d2,
                         [.groq messages2 temperature maxTokens, .hf prompt temperature maxTokens],
                         r1.2, r2.2⟩
                      | .error (.otherExc m) =>
                        ⟨.pyError m,
                         [.groq messages2 temperature maxTokens, .hf prompt temperature maxTokens],
                         r1.2, r2.2⟩
                    else ⟨.httpError st d, [.groq messages2 temperature maxTokens], r1.2, r2.2⟩
                  | .error (.otherExc m) =>
                    ⟨.pyError m, [.groq messages2 temperature maxTokens], r1.2, r2.2⟩
                else if cfg.HF_API_TOKEN ≠ "" then
                  let prompt := to_instruct_prompt sysText messages2
                  match hf_generate cfg hfUp prompt temperature maxTokens with
                  | .ok text =>
                    ⟨.ok (hfResp cfg text), [.hf prompt temperature maxTokens], r1.2, r2.2⟩
                  | .error (.httpExc st d) =>
                    ⟨.httpError st d, [.hf prompt temperature maxTokens], r1.2, r2.2⟩
                  | .error (.otherExc m) =>
                    ⟨.pyError m, [.hf prompt temperature maxTokens], r1.2, r2.2⟩
                else
                  ⟨.httpError 500 "No provider configured. Set GROQ_API_KEY or HF_API_TOKEN.",
                   [], r1.2, r2.2⟩
    | _ => ⟨.httpError 400 "messages[] is required", [], rateMin, rateDay⟩

/-! ### The registered HTTP surface (app.py lines 140-143 and 244-255) -/

/-- Which handler a registered route dispatches to. -/
inductive HandlerTag where
  | chatHandler
  | rootHandler
  | pingHandler
deriving Repr, DecidableEq

/-- One registered route: method, path, handler. -/
structure Route where
  method : String
  path : String
  handler : HandlerTag
deriving Repr, DecidableEq

/-- Every route decorator in app.py, in file order: `GET /` (line 140),
`POST /api/chat` (line 245), `POST /api/chat/` (line 249), `GET /api/ping`
(line 253). Both chat routes delegate to `handle_chat`. -/
def routes : List Route :=
  [⟨"GET", "/", .rootHandler⟩,
   ⟨"POST", "/api/chat", .chatHandler⟩,
   ⟨"POST", "/api/chat/", .chatHandler⟩,
   ⟨"GET", "/api/ping", .pingHandler⟩]

/-! ### Concrete fixtures for the closed instances -/

/-- A concrete configuration: both credentials set, the default models,
limits, assistant name, and required wake-word mode of `app.py`. -/
def exCfg : Config :=
  ⟨"gk", "ht", "llama-3.1-8b-instant", "mistralai/Mistral-7B-Instruct", 6, 50, "Marion", "require"⟩

/-- A request carrying the given messages and optional temperature value,
with no forwarding header and direct connection address `9.9.9.9`. -/
def exReq (msgs : List Msg) (temp : Option PyVal) : RequestModel :=
  ⟨.ok ⟨some (.list msgs), temp, none⟩, "", "9.9.9.9"⟩

/-- A user-role message. -/
def userMsg (s : String) : Msg := ⟨some "user", some s⟩

/-- The float literal `-5` in normal form. -/
def ratNeg5 : Rat := ⟨-5, 1, by decide, by decide⟩

/-- The float literal `9.9` in normal form. -/
def rat99d10 : Rat := ⟨99, 10, by decide, by decide⟩

/-- The float literal `1.5` (the ceiling named by the spec) in normal form. -/
def rat3d2 : Rat := ⟨3, 2, by decide, by decide⟩

/-- The integer `n` as a rational in normal form. -/
def ratInt (n : Int) : Rat := ⟨n, 1, one_ne_zero, Nat.coprime_one_right _⟩

/-! ### Helper lemmas -/

theorem getEntry_setEntry (b : Bucket) (key : String) (e : Entry) :
    getEntry (setEntry b key e) key = some e := by
  induction b with
  | nil => simp [setEntry, getEntry, List.find?]
  | cons p rest ih =>
    obtain ⟨k, v⟩ := p
    by_cases h : k = key
    · subst h
      simp [setEntry, getEntry, List.find?]
    · simp only [setEntry, if_neg h]
      simpa [getEntry, List.find?, h] using ih

/-- After `n ≥ 1` hits at one instant inside the window, starting with no
entry for the key, the entry holds count `n` and expiry `t + W`. -/
theorem afterHits_getEntry (b : Bucket) (key : String) (L W t : Int)
    (hb : getEntry b key = none) (hW : 0 ≤ W) :
    ∀ n : ℕ, 1 ≤ n →
      getEntry (afterHits b key L W t n) key = some ⟨(n : Int), t + W⟩ := by
  intro n hn
  induction n with
  | zero => omega
  | succ k ih =>
    by_cases hk : 1 ≤ k
    · have hlook := ih hk
      have hnot : ¬ t > t + W := by omega
      show getEntry (hit (afterHits b key L W t k) key L W t).2 key = _
      unfold hit
      rw [hlook]
      dsimp only
      rw [if_neg hnot, getEntry_setEntry]
      norm_cast
    · have hk0 : k = 0 := by omega
      subst hk0
      show getEntry (hit (afterHits b key L W t 0) key L W t).2 key = _
      unfold hit afterHits
      rw [hb]
      dsimp only
      rw [getEntry_setEntry]
      norm_num

theorem renderMsg_foldl (l : List Msg) (init : List String) :
    l.foldl (fun acc m => acc ++ [renderMsg m]) init = init ++ l.map renderMsg := by
  induction l generalizing init with
  | nil => simp
  | cons m rest ih => simp [List.foldl, ih]

theorem ratTrunc_ratInt (n : Int) : ratTrunc (ratInt n) = n := by
  simp only [ratTrunc, ratInt, Nat.div_one, Int.ofNat_eq_natCast]
  split <;> omega

theorem extract_params_defaults (mf : Option MessagesField) :
    extract_params ⟨mf, none, none⟩ = .ok (rat07, 256) := by
  simp [extract_params, pyFloat, pyInt, Bind.bind, Except.bind, Pure.pure, Except.pure]
  decide

/-! ### The claims -/

/-- C1: fixed-window rate limiter. A missing or expired entry is replaced by
a fresh `{count 1, exp now + W}` and not-exceeded is reported; otherwise the
count is incremented and exceeded is reported iff the new count is over the
limit. Consequently, starting fresh, the `k`-th request at one instant is
rejected exactly when `k > L` (so the `L`-th is accepted and the `(L+1)`-th
rejected), and a request after the expiry resets the count to 1 and is
accepted. -/
theorem C1_rate_limiter :
    (∀ (b : Bucket) (key : String) (L W now : Int),
      getEntry b key = none →
      hit b key L W now = (false, setEntry b key ⟨1, now + W⟩))
    ∧ (∀ (b : Bucket) (key : String) (L W now : Int) (e : Entry),
      getEntry b key = some e → now > e.exp →
      hit b key L W now = (false, setEntry b key ⟨1, now + W⟩))
    ∧ (∀ (b : Bucket) (key : String) (L W now : Int) (e : Entry),
      getEntry b key = some e → ¬ now > e.exp →
      hit b key L W now = (decide (e.count + 1 > L), setEntry b key ⟨e.count + 1, e.exp⟩))
    ∧ (∀ (b : Bucket) (key : String) (L W t : Int) (n : ℕ),
      getEntry b key = none → 0 ≤ W → 1 ≤ L → 1 ≤ n →
      (hit (afterHits b key L W t (n - 1)) key L W t).1 = decide ((n : Int) > L))
    ∧ (∀ (b : Bucket) (key : String) (L W t t2 : Int) (n : ℕ),
      getEntry b key = none → 0 ≤ W → 1 ≤ n → t2 > t + W →
      hit (afterHits b key L W t n) key L W t2
        = (false, setEntry (afterHits b key L W t n) key ⟨1, t2 + W⟩)) := by
  refine ⟨?_, ?_, ?_, ?_, ?_⟩
  · intro b key L W now h
    simp [hit, h]
  · intro b key L W now e h hgt
    simp [hit, h, hgt]
  · intro b key L W now e h hle
    simp [hit, h, hle]
  · intro b key L W t n hb hW hL hn
    match n, hn with
    | 1, _ =>
      have : ¬ ((1 : Int) > L) := by omega
      simp [afterHits, hit, hb, this]
    | (k + 2), _ =>
      have hlook := afterHits_getEntry b key L W t hb hW (k + 1) (by omega)
      have hnot : ¬ t > t + W := by omega
      have h21 : k + 2 - 1 = k + 1 := by omega
      rw [h21]
      unfold hit
      rw [hlook]
      dsimp only
      rw [if_neg hnot]
      dsimp only
      rw [decide_eq_decide]
      push_cast
      omega
  · intro b key L W t t2 n hb hW hn hgt
    have hlook := afterHits_getEntry b key L W t hb hW n hn
    simp [hit, hlook, hgt]

/-- C1 witness: with limit 2 and window 60 starting fresh, the third request
at the same instant is rejected. -/
theorem C1_rate_limiter_witness :
    (hit (afterHits [] "min:1.2.3.4" 2 60 0 (3 - 1)) "min:1.2.3.4" 2 60 0).1 = true :=
  C1_rate_limiter.2.2.2.1 [] "min:1.2.3.4" 2 60 0 3 rfl (by decide) (by decide) (by decide)

/-- C2 counterexample: no clamping exists. A supplied temperature of `-5`
leaves the extraction as `-5` (the claim requires `0.0`) and is passed to the
provider call as `-5`; a supplied `9.9` stays `9.9`, above the claimed `1.5`
ceiling. -/
theorem C2_counterexample :
    extract_params ⟨none, some (.num ratNeg5), none⟩ = .ok (ratNeg5, 256)
    ∧ ratNeg5.num = -5 ∧ ratNeg5.den = 1
    ∧ extract_params ⟨none, some (.num rat99d10), none⟩ = .ok (rat99d10, 256)
    ∧ rat3d2 < rat99d10
    ∧ (handle_chat exCfg 0 [] [] (.httpR 200 "" (some "ok")) (.httpR 200 "" none) "SYS"
         (exReq [userMsg "hi Marion"] (some (.num ratNeg5)))).calls
      = [.groq [⟨some "system", some "SYS"⟩, userMsg "hi Marion"] ratNeg5 256] := by
  decide

/-- C2 (amended): the parameter extraction applies defaults but no clamps:
a supplied numeric temperature passes through unchanged whatever its value,
an omitted temperature defaults to `0.7`; a supplied integer `max_tokens`
passes through unchanged with no upper ceiling, an omitted one defaults
to `256`. -/
theorem C2_params_passthrough :
    (∀ (mf : Option MessagesField) (q : Rat) (v : Option PyVal),
      extract_params ⟨mf, some (.num q), v⟩
        = (pyInt (v.getD (.num rat256))).map (fun n => (q, n)))
    ∧ (∀ (mf : Option MessagesField) (v : Option PyVal),
      extract_params ⟨mf, none, v⟩
        = (pyInt (v.getD (.num rat256))).map (fun n => (rat07, n)))
    ∧ (∀ (mf : Option MessagesField) (t : Option PyVal) (n : Int),
      extract_params ⟨mf, t, some (.num (ratInt n))⟩
        = (pyFloat (t.getD (.num rat07))).map (fun q => (q, n)))
    ∧ (∀ (mf : Option MessagesField) (t : Option PyVal),
      extract_params ⟨mf, t, none⟩
        = (pyFloat (t.getD (.num rat07))).map (fun q => (q, 256))) := by
  refine ⟨?_, ?_, ?_, ?_⟩
  · intro mf q v
    cases hres : pyInt (v.getD (.num rat256)) <;>
      simp [extract_params, pyFloat, hres, Except.map, Bind.bind, Except.bind, Pure.pure, Except.pure]
  · intro mf v
    cases hres : pyInt (v.getD (.num rat256)) <;>
      simp [extract_params, pyFloat, hres, Except.map, Bind.bind, Except.bind, Pure.pure, Except.pure]
  · intro mf t n
    cases hres : pyFloat (t.getD (.num rat07)) <;>
      simp [extract_params, pyInt, hres, Except.map, ratTrunc_ratInt, Bind.bind, Except.bind, Pure.pure, Except.pure]
  · intro mf t
    cases hres : pyFloat (t.getD (.num rat07)) <;>
      simp [extract_params, pyInt, hres, Except.map, Bind.bind, Except.bind, Pure.pure, Except.pure] <;>
      decide

/-- C3 counterexample: a request whose messages list has 41 entries — above
the claimed maximum of 40 — is not rejected: it is served by the provider,
with a provider HTTP call made. -/
theorem C3_counterexample :
    (List.replicate 41 (userMsg "hi Marion")).length = 41
    ∧ (handle_chat exCfg 0 [] [] (.httpR 200 "" (some "ok")) (.httpR 200 "" none) "SYS"
        (exReq (List.replicate 41 (userMsg "hi Marion")) none)).result
      = .ok (groqResp exCfg "ok")
    ∧ (handle_chat exCfg 0 [] [] (.httpR 200 "" (some "ok")) (.httpR 200 "" none) "SYS"
        (exReq (List.replicate 41 (userMsg "hi Marion")) none)).calls ≠ [] := by
  decide

/-- C3 (amended): the handler validates only presence, list-ness and
non-emptiness of `messages` — each such failure is a 400 with no provider
call — and there is no maximum-length check: any non-empty messages list,
of any length, passes validation, and in a benign configuration reaches
the provider. -/
theorem C3_validation :
    (∀ (cfg : Config) (now : Int) (rmin rday : Bucket) (g : GroqUpstream) (hf : HfUpstream)
       (sysText fh host : String) (t mt : Option PyVal),
      handle_chat cfg now rmin rday g hf sysText ⟨.ok ⟨none, t, mt⟩, fh, host⟩
        = ⟨.httpError 400 "messages[] is required", [], rmin, rday⟩)
    ∧ (∀ (cfg : Config) (now : Int) (rmin rday : Bucket) (g : GroqUpstream) (hf : HfUpstream)
       (sysText fh host : String) (t mt : Option PyVal),
      handle_chat cfg now rmin rday g hf sysText ⟨.ok ⟨some .nonList, t, mt⟩, fh, host⟩
        = ⟨.httpError 400 "messages[] is required", [], rmin, rday⟩)
    ∧ (∀ (cfg : Config) (now : Int) (rmin rday : Bucket) (g : GroqUpstream) (hf : HfUpstream)
       (sysText fh host : String) (t mt : Option PyVal),
      handle_chat cfg now rmin rday g hf sysText ⟨.ok ⟨some (.list []), t, mt⟩, fh, host⟩
        = ⟨.httpError 400 "messages[] is required", [], rmin, rday⟩)
    ∧ (∀ (msgs : List Msg), msgs ≠ [] →
      mentions_name "Marion" (lastUserContent msgs) = true →
      handle_chat exCfg 0 [] [] (.httpR 200 "" (some "ok")) (.httpR 200 "" none) "SYS"
        (exReq msgs none)
        = ⟨.ok (groqResp exCfg "ok"),
           [.groq (Msg.mk (some "system") (some "SYS") :: msgs) rat07 256],
           [("min:9.9.9.9", ⟨1, 60⟩)], [("day:9.9.9.9", ⟨1, 86400⟩)]⟩) := by
  refine ⟨fun _ _ _ _ _ _ _ _ _ _ _ => rfl, fun _ _ _ _ _ _ _ _ _ _ _ => rfl,
    fun _ _ _ _ _ _ _ _ _ _ _ => rfl, ?_⟩
  intro msgs hne hment
  simp only [handle_chat, exReq, exCfg]
  rw [if_neg hne]
  simp [show client_ip ipaddress_ok "" "9.9.9.9" = "9.9.9.9" from by decide,
    show hit [] "min:9.9.9.9" 6 60 0 = (false, [("min:9.9.9.9", ⟨1, 60⟩)]) from by decide,
    show hit [] "day:9.9.9.9" 50 86400 0
      = (false, [("day:9.9.9.9", ⟨1, 86400⟩)]) from by decide,
    extract_params_defaults, hment, groq_generate_chat]

/-- C3 witness: a benign one-message request passes validation and is served
by the provider. -/
theorem C3_validation_witness :
    handle_chat exCfg 0 [] [] (.httpR 200 "" (some "ok")) (.httpR 200 "" none) "SYS"
      (exReq [userMsg "hi Marion"] none)
      = ⟨.ok (groqResp exCfg "ok"),
         [.groq [Msg.mk (some "system") (some "SYS"), userMsg "hi Marion"] rat07 256],
         [("min:9.9.9.9", ⟨1, 60⟩)], [("day:9.9.9.9", ⟨1, 86400⟩)]⟩ :=
  C3_validation.2.2.2 [userMsg "hi Marion"] (by decide) (by decide)

/-- C5: with wake-word mode required, if the most recent user-role message
does not mention the assistant name (case-insensitive whole word), the
handler returns the canned waiting reply with provider `guard` and model
unset, making no provider call; if it does mention the name and a provider
is configured, the request proceeds to a provider call. -/
theorem C5_wake_word_gate :
    (∀ (cfg : Config) (now : Int) (rmin rday : Bucket) (g : GroqUpstream) (hf : HfUpstream)
       (sysText : String) (req : RequestModel) (body : Body) (msgs : List Msg) (t : Rat) (m : Int),
      req.body = .ok body →
      body.messages = some (.list msgs) →
      msgs ≠ [] →
      (hit rmin ("min:" ++ client_ip ipaddress_ok req.forwarded req.clientHost)
        cfg.PER_MINUTE 60 now).1 = false →
      (hit rday ("day:" ++ client_ip ipaddress_ok req.forwarded req.clientHost)
        cfg.DAILY_CAP 86400 now).1 = false →
      extract_params body = .ok (t, m) →
      cfg.WAKE_WORD_MODE = "require" →
      mentions_name cfg.ASSISTANT_NAME (lastUserContent msgs) = false →
      handle_chat cfg now rmin rday g hf sysText req
        = ⟨.ok (guardResp cfg.ASSISTANT_NAME), [],
           (hit rmin ("min:" ++ client_ip ipaddress_ok req.forwarded req.clientHost)
             cfg.PER_MINUTE 60 now).2,
           (hit rday ("day:" ++ client_ip ipaddress_ok req.forwarded req.clientHost)
             cfg.DAILY_CAP 86400 now).2⟩)
    ∧ (∀ (cfg : Config) (now : Int) (rmin rday : Bucket) (g : GroqUpstream) (hf : HfUpstream)
       (sysText : String) (req : RequestModel) (body : Body) (msgs : List Msg) (t : Rat) (m : Int),
      req.body = .ok body →
      body.messages = some (.list msgs) →
      msgs ≠ [] →
      (hit rmin ("min:" ++ client_ip ipaddress_ok req.forwarded req.clientHost)
        cfg.PER_MINUTE 60 now).1 = false →
      (hit rday ("day:" ++ client_ip ipaddress_ok req.forwarded req.clientHost)
        cfg.DAILY_CAP 86400 now).1 = false →
      extract_params body = .ok (t, m) →
      cfg.WAKE_WORD_MODE = "require" →
      mentions_name cfg.ASSISTANT_NAME (lastUserContent msgs) = true →
      cfg.GROQ_API_KEY ≠ "" →
      (handle_chat cfg now rmin rday g hf sysText req).calls.head?
        = some (.groq (Msg.mk (some "system") (some sysText) :: msgs) t m)) := by
  constructor
  · intro cfg now rmin rday g hf sysText req body msgs t m hb hm hne h1 h2 hp hmode hment
    simp [handle_chat, hb, hm, hne, h1, h2, hp, hmode, hment]
  · intro cfg now rmin rday g hf sysText req body msgs t m hb hm hne h1 h2 hp hmode hment hkey
    simp only [handle_chat, hb, hm]
    rw [if_neg hne]
    simp [h1, h2, hp, hmode, hment, hkey]
    repeat' split
    all_goals simp

/-- C5 witness: a last user message `"hello"` (no mention of `Marion`) yields
the guard response with no call; the fresh rate-limit buckets are updated. -/
theorem C5_wake_word_gate_witness :
    handle_chat exCfg 0 [] [] (.httpR 200 "" (some "ok")) (.httpR 200 "" none) "SYS"
      (exReq [userMsg "hello"] none)
      = ⟨.ok (guardResp exCfg.ASSISTANT_NAME), [],
         (hit [] ("min:" ++ client_ip ipaddress_ok "" "9.9.9.9") exCfg.PER_MINUTE 60 0).2,
         (hit [] ("day:" ++ client_ip ipaddress_ok "" "9.9.9.9") exCfg.DAILY_CAP 86400 0).2⟩ :=
  C5_wake_word_gate.1 exCfg 0 [] [] (.httpR 200 "" (some "ok")) (.httpR 200 "" none) "SYS"
    (exReq [userMsg "hello"] none) ⟨some (.list [userMsg "hello"]), none, none⟩ [userMsg "hello"]
    rat07 256 rfl rfl (by decide) (by decide) (by decide) (by decide) rfl (by decide)

/-- C4 counterexample: with both credentials configured, a transport-level
primary failure (an httpx exception, not an `HTTPException`) propagates as an
uncaught error with no secondary attempt — the claim requires a secondary
attempt for a failure of any kind. -/
theorem C4_counterexample :
    exCfg.GROQ_API_KEY ≠ "" ∧ exCfg.HF_API_TOKEN ≠ ""
    ∧ (handle_chat exCfg 0 [] [] (.transport "connection reset by peer")
         (.httpR 200 "" (some "fallback")) "SYS" (exReq [userMsg "hi Marion"] none)).result
        = .pyError "connection reset by peer"
    ∧ (handle_chat exCfg 0 [] [] (.transport "connection reset by peer")
         (.httpR 200 "" (some "fallback")) "SYS" (exReq [userMsg "hi Marion"] none)).calls
        = [.groq [Msg.mk (some "system") (some "SYS"), userMsg "hi Marion"] rat07 256] := by
  decide

/-- C4 (amended): with both providers configured, a primary failure raised
as an `HTTPException` (upstream non-success status or bad response shape)
causes exactly one secondary attempt on the same already-normalized
conversation, and the result is the secondary's outcome — in particular if
the secondary also fails its error is surfaced, not the primary's, with no
further retry; a primary failure of any other kind (a transport-level
exception) propagates uncaught with no secondary attempt. -/
theorem C4_fallback_on_httpexception :
    ∀ (cfg : Config) (now : Int) (rmin rday : Bucket) (g : GroqUpstream) (hf : HfUpstream)
      (sysText : String) (req : RequestModel) (body : Body) (msgs : List Msg) (t : Rat) (m : Int),
      req.body = .ok body →
      body.messages = some (.list msgs) →
      msgs ≠ [] →
      (hit rmin ("min:" ++ client_ip ipaddress_ok req.forwarded req.clientHost)
        cfg.PER_MINUTE 60 now).1 = false →
      (hit rday ("day:" ++ client_ip ipaddress_ok req.forwarded req.clientHost)
        cfg.DAILY_CAP 86400 now).1 = false →
      extract_params body = .ok (t, m) →
      (cfg.WAKE_WORD_MODE = "require"
        && !mentions_name cfg.ASSISTANT_NAME (lastUserContent msgs)) = false →
      cfg.GROQ_API_KEY ≠ "" →
      cfg.HF_API_TOKEN ≠ "" →
      (∀ st d, groq_generate_chat cfg g (Msg.mk (some "system") (some sysText) :: msgs) t m
          = .error (.httpExc st d) →
        (handle_chat cfg now rmin rday g hf sysText req).calls
          = [.groq (Msg.mk (some "system") (some sysText) :: msgs) t m,
             .hf (to_instruct_prompt sysText (Msg.mk (some "system") (some sysText) :: msgs)) t m]
        ∧ (handle_chat cfg now rmin rday g hf sysText req).result
          = (match hf_generate cfg hf
               (to_instruct_prompt sysText (Msg.mk (some "system") (some sysText) :: msgs)) t m with
             | .ok text => .ok (hfResp cfg text)
             | .error (.httpExc st2 d2) => .httpError st2 d2
             | .error (.otherExc m2) => .pyError m2))
      ∧ (∀ emsg, groq_generate_chat cfg g (Msg.mk (some "system") (some sysText) :: msgs) t m
          = .error (.otherExc emsg) →
        (handle_chat cfg now rmin rday g hf sysText req).result = .pyError emsg
        ∧ (handle_chat cfg now rmin rday g hf sysText req).calls
          = [.groq (Msg.mk (some "system") (some sysText) :: msgs) t m]) := by
  intro cfg now rmin rday g hf sysText req body msgs t m hb hm hne h1 h2 hp hwake hkey hhf
  constructor
  · intro st d hgq
    simp only [handle_chat, hb, hm]
    rw [if_neg hne]
    simp [h1, h2, hp, hwake, hkey, hhf, hgq]
    split <;> simp
  · intro emsg hgq
    simp only [handle_chat, hb, hm]
    rw [if_neg hne]
    simp [h1, h2, hp, hwake, hkey, hhf, hgq]

/-- C4 witness: primary returns a 500, secondary a 503 — the secondary is
attempted once and the surfaced error is the secondary's 503. -/
theorem C4_fallback_witness :
    (handle_chat exCfg 0 [] [] (.httpR 500 "boom" none) (.httpR 503 "hfdown" none) "SYS"
       (exReq [userMsg "hi Marion"] none)).calls
      = [.groq [Msg.mk (some "system") (some "SYS"), userMsg "hi Marion"] rat07 256,
         .hf (to_instruct_prompt "SYS" [Msg.mk (some "system") (some "SYS"), userMsg "hi Marion"])
           rat07 256]
    ∧ (handle_chat exCfg 0 [] [] (.httpR 500 "boom" none) (.httpR 503 "hfdown" none) "SYS"
       (exReq [userMsg "hi Marion"] none)).result = .httpError 503 "hfdown" :=
  (C4_fallback_on_httpexception exCfg 0 [] [] (.httpR 500 "boom" none) (.httpR 503 "hfdown" none)
    "SYS" (exReq [userMsg "hi Marion"] none) ⟨some (.list [userMsg "hi Marion"]), none, none⟩
    [userMsg "hi Marion"] rat07 256 rfl rfl (by decide) (by decide) (by decide) (by decide)
    (by decide) (by decide) (by decide)).1 500 "boom" (by decide)

/-- C6 counterexample: the guard short-circuit response is a non-error
response of the chat handler whose keys are exactly `reply`, `provider`,
`model` — there is no `usage` field, contradicting the claimed uniform
four-key shape. -/
theorem C6_counterexample :
    (handle_chat exCfg 0 [] [] (.httpR 200 "" (some "ok")) (.httpR 200 "" none) "SYS"
       (exReq [userMsg "hello"] none)).result = .ok (guardResp "Marion")
    ∧ (guardResp "Marion").map Prod.fst = ["reply", "provider", "model"]
    ∧ ¬ ("usage" ∈ (guardResp "Marion").map Prod.fst) := by
  decide

/-- C6 (amended): every non-error response of the handler has one of three
fixed shapes: the guard response `{reply, provider, model null}` (no usage
key), or a provider response `{reply, usage, model, provider}` whose usage
is always the literal empty mapping — provider-reported usage is never
passed through. -/
theorem C6_response_shapes :
    ∀ (cfg : Config) (now : Int) (rateMin rateDay : Bucket) (groqUp : GroqUpstream)
      (hfUp : HfUpstream) (sysText : String) (req : RequestModel)
      (resp : List (String × RVal)),
      (handle_chat cfg now rateMin rateDay groqUp hfUp sysText req).result = .ok resp →
      resp = guardResp cfg.ASSISTANT_NAME
      ∨ (∃ text, resp = groqResp cfg text)
      ∨ (∃ text, resp = hfResp cfg text) := by
  intro cfg now rateMin rateDay groqUp hfUp sysText req resp h
  unfold handle_chat at h
  dsimp only at h
  repeat' split at h
  all_goals dsimp only at h
  all_goals first
    | (injection h with h2
       first
         | exact Or.inl h2.symm
         | exact Or.inr (Or.inl ⟨_, h2.symm⟩)
         | exact Or.inr (Or.inr ⟨_, h2.symm⟩))
    | injection h

/-- C6 witness: the guard path's response satisfies the shape disjunction. -/
theorem C6_response_shapes_witness :
    guardResp "Marion" = guardResp exCfg.ASSISTANT_NAME
    ∨ (∃ text, guardResp "Marion" = groqResp exCfg text)
    ∨ (∃ text, guardResp "Marion" = hfResp exCfg text) :=
  C6_response_shapes exCfg 0 [] [] (.httpR 200 "" (some "ok")) (.httpR 200 "" none) "SYS"
    (exReq [userMsg "hello"] none) (guardResp "Marion") (by decide)

/-- C7 counterexample: the flattened prompt of the single-message
conversation `[{role user, content "hi"}]` is not `"User: hi\nAssistant:"`;
it starts with the prepended `System:` line (shown at persona text `"S"`). -/
theorem C7_counterexample :
    to_instruct_prompt "S" [userMsg "hi"] = "System: S\nUser: hi\nAssistant:"
    ∧ to_instruct_prompt "S" [userMsg "hi"] ≠ "User: hi\nAssistant:" := by
  decide

/-- C7 (amended): the flattened prompt is the `System:` persona line followed
by the conversation's messages in order — user messages prefixed `User: `,
assistant messages prefixed `Assistant: `, any other role's content verbatim —
joined by newlines and terminated with a trailing `Assistant:` cue. -/
theorem C7_prompt_flatten :
    ∀ (sysText : String) (messages : List Msg),
      to_instruct_prompt sysText messages
        = specFlatten ("System: " ++ sysText) messages := by
  intro sysText messages
  unfold to_instruct_prompt specFlatten
  rw [renderMsg_foldl]
  simp

/-- C8 counterexample: no `POST /api/chat/stream` route is registered. -/
theorem C8_counterexample :
    ¬ (("POST", "/api/chat/stream") ∈ routes.map (fun r => (r.method, r.path))) := by
  decide

/-- C8 (amended): the HTTP surface is exactly `GET /`, `POST /api/chat`,
`POST /api/chat/` and `GET /api/ping`; both chat routes dispatch to
`handle_chat` (buffered), and no streaming endpoint exists. -/
theorem C8_http_surface :
    routes.map (fun r => (r.method, r.path))
      = [("GET", "/"), ("POST", "/api/chat"), ("POST", "/api/chat/"), ("GET", "/api/ping")]
    ∧ (∀ r ∈ routes, (r.path = "/api/chat" ∨ r.path = "/api/chat/") → r.handler = .chatHandler)
    ∧ routes.all (fun r => decide (r.path ≠ "/api/chat/stream")) = true := by
  refine ⟨by decide, ?_, by decide⟩
  intro r hr h
  fin_cases hr <;> simp_all

/-- C8 witness: the `POST /api/chat` route dispatches to the chat handler. -/
theorem C8_http_surface_witness :
    Route.handler ⟨"POST", "/api/chat", .chatHandler⟩ = .chatHandler :=
  C8_http_surface.2.1 ⟨"POST", "/api/chat", .chatHandler⟩ (by decide) (Or.inl rfl)

/-- C9 counterexample: with forwarding header `"not-an-ip"` and direct
address `1.2.3.4` (a valid address), the resolver returns the fallback
`0.0.0.0`, not the direct address as the claim requires. -/
theorem C9_counterexample :
    client_ip ipaddress_ok "not-an-ip" "1.2.3.4" = "0.0.0.0"
    ∧ ipaddress_ok "1.2.3.4" = true
    ∧ "0.0.0.0" ≠ "1.2.3.4" := by
  decide

/-- C9 (amended): the resolver never raises (it is a total function) and the
precedence is: the stripped first comma-separated field of the forwarding
header when nonempty is the only candidate considered — valid gives that
value, invalid gives the fallback without consulting the direct address;
when the forwarded field is empty, the nonempty direct address is the
candidate; when both are empty the fallback is returned; the result is
always a value accepted by the validator or the fallback address. -/
theorem C9_client_ip_precedence :
    (∀ (valid : String → Bool) (fh host : String),
      String.mk (trimChars ((splitOnChar ',' fh.toList).headD [])) ≠ "" →
      client_ip valid fh host
        = (if valid (String.mk (trimChars ((splitOnChar ',' fh.toList).headD []))) then
             String.mk (trimChars ((splitOnChar ',' fh.toList).headD []))
           else "0.0.0.0"))
    ∧ (∀ (valid : String → Bool) (fh host : String),
      String.mk (trimChars ((splitOnChar ',' fh.toList).headD [])) = "" → host ≠ "" →
      client_ip valid fh host = (if valid host then host else "0.0.0.0"))
    ∧ (∀ (valid : String → Bool) (fh host : String),
      String.mk (trimChars ((splitOnChar ',' fh.toList).headD [])) = "" → host = "" →
      client_ip valid fh host = "0.0.0.0")
    ∧ (∀ (valid : String → Bool) (fh host : String),
      valid (client_ip valid fh host) = true ∨ client_ip valid fh host = "0.0.0.0") := by
  refine ⟨?_, ?_, ?_, ?_⟩
  · intro valid fh host hne
    simp only [client_ip, if_pos hne]
  · intro valid fh host he hhost
    simp only [client_ip]
    rw [he]
    simp [hhost]
  · intro valid fh host he hhost
    simp only [client_ip]
    rw [he]
    simp [hhost]
  · intro valid fh host
    have key : ∀ ip : String,
        valid (if valid ip then ip else "0.0.0.0") = true
        ∨ (if valid ip then ip else "0.0.0.0") = "0.0.0.0" := by
      intro ip
      by_cases h : valid ip
      · left
        simp [h]
      · right
        simp [h]
    unfold client_ip
    exact key _

/-- C9 witness: the first comma-separated forwarded value, stripped and
valid, is returned. -/
theorem C9_client_ip_precedence_witness :
    client_ip ipaddress_ok "10.0.0.7, 9.9.9.9" "" = "10.0.0.7" :=
  C9_client_ip_precedence.1 ipaddress_ok "10.0.0.7, 9.9.9.9" "" (by decide)

/-- C10: a well-formed request (valid JSON, non-empty messages, within both
rate limits) whose temperature is the string `"hot"` makes `handle_chat`
raise the uncaught `float()` conversion error — not an `HTTPException`
with a 4xx status — and no provider call is made. -/
theorem C10_uncaught_conversion :
    (handle_chat exCfg 0 [] [] (.httpR 200 "" (some "ok")) (.httpR 200 "" none) "SYS"
       (exReq [userMsg "hi Marion"] (some (.str "hot")))).result
      = .pyError "ValueError: could not convert string to float: hot"
    ∧ (handle_chat exCfg 0 [] [] (.httpR 200 "" (some "ok")) (.httpR 200 "" none) "SYS"
       (exReq [userMsg "hi Marion"] (some (.str "hot")))).calls = [] := by
  decide

end Marion
